import Mathlib

/-!
Verification of the AWS serverless URL-shortener handlers
(`lambda/create_short_url.py`, `lambda/redirect_url.py`, `lambda/get_analytics.py`).

The DynamoDB table is modelled as a function from short codes to optional
items; DynamoDB attributes that a record may lack are `Option`-valued.
Store faults (`ClientError`) are modelled by explicit failure flags passed
to each handler; the per-attempt randomness of `random.choice` is modelled
by an explicit choice function.  Clock reads (`datetime.utcnow()`) are
modelled by explicit string parameters, one per call site.
-/

namespace URLShortener

/-- A Python value as it can arrive from `json.loads(...)['url']`:
`None`, a string, or some other (non-string) JSON value of which only
the truthiness matters to the code under study. -/
inductive PyVal where
  | vnone
  | vstr (s : String)
  | vother (truthy : Bool)
deriving Repr, DecidableEq

/-- Python truthiness of the modelled values (`None` and `""` are falsy). -/
def pyTruthy : PyVal → Bool
  | .vnone => false
  | .vstr s => !s.isEmpty
  | .vother t => t

/-- `isinstance(v, str)`. -/
def isStr : PyVal → Bool
  | .vstr _ => true
  | _ => false

/-! ### Model of `urllib.parse.urlparse` (scheme and netloc components)

Only the `scheme` and `netloc` components are consumed by the code under
study.  The model follows CPython 3.11's `urlsplit`: strip C0-control or
space characters from the LEFT end only, remove every tab/CR/LF, split
off a scheme (first colon, non-empty all-scheme-chars prefix starting
with an ASCII letter, lowercased), take the netloc after a leading `//`
up to the next `/`, `?` or `#`, raising `ValueError` on an unmatched
IPv6 bracket, validate a bracketed host (`_check_bracketed_host`:
IPvFuture literal or a valid IPv6 address; a valid IPv4 address or
anything else raises), and finally run `_checknetloc`, which raises when
a non-ASCII netloc gains one of `/?#@:` under NFKC normalization. -/

/-- C0 control characters and space; `urlsplit` strips these from the
left end only ("Only lstrip url as some applications rely on preserving
trailing space"). -/
def isC0OrSpace (c : Char) : Bool := c.toNat ≤ 32

/-- The cleaned character list `urlsplit` actually parses: lstrip of
C0-control/space, then removal of every tab, CR and LF. -/
def cleanUrl (s : String) : List Char :=
  (s.toList.dropWhile isC0OrSpace).filter (fun c => !(c == '\t' || c == '\r' || c == '\n'))

/-- `urllib.parse.scheme_chars`. -/
def schemeChars : List Char :=
  ("abcdefghijklmnopqrstuvwxyzABCDEFGHIJKLMNOPQRSTUVWXYZ0123456789+-.").toList

/-- Split off the scheme: `i = url.find(':')`; a scheme exists when `i > 0`,
the first character is an ASCII letter and every character before the colon
is a scheme character; the scheme is lowercased. -/
def splitScheme (u : List Char) : String × List Char :=
  let pre := u.takeWhile (fun c => c ≠ ':')
  if u.contains ':' && !pre.isEmpty &&
      (match pre with | c :: _ => c.isAlpha | [] => false) &&
      pre.all (fun c => schemeChars.contains c) then
    (String.mk (pre.map Char.toLower), u.drop (pre.length + 1))
  else
    ("", u)

/-- ASCII decimal digit (`octet_str.isascii() and octet_str.isdigit()`). -/
def isAsciiDigit (c : Char) : Bool := '0' ≤ c && c ≤ '9'

/-- `ipaddress._BaseV6._HEX_DIGITS`. -/
def isIpHexDigit (c : Char) : Bool :=
  isAsciiDigit c || ('a' ≤ c && c ≤ 'f') || ('A' ≤ c && c ≤ 'F')

/-- Python `str.split(sep)` for a one-character separator (keeps empty
pieces; `''.split(sep) == ['']`). -/
def splitOnChar (sep : Char) : List Char → List (List Char)
  | [] => [[]]
  | c :: rest =>
    match splitOnChar sep rest with
    | h :: t => if c = sep then [] :: h :: t else (c :: h) :: t
    | [] => if c = sep then [[], []] else [[c]]

/-- `IPv4Address._parse_octet` succeeds: non-empty, ASCII digits only, at
most 3 characters, no leading zero except `"0"` itself, value ≤ 255. -/
def validOctet (o : List Char) : Bool :=
  !o.isEmpty && o.all isAsciiDigit && o.length ≤ 3 &&
  (o == ['0'] || !(o.head? == some '0')) &&
  o.foldl (fun a c => a * 10 + (c.toNat - 48)) 0 ≤ 255

/-- `IPv4Address._ip_int_from_string` succeeds: exactly four valid octets. -/
def isValidIPv4 (h : List Char) : Bool :=
  !h.isEmpty &&
  (let octs := splitOnChar '.' h
   octs.length == 4 && octs.all validOctet)

/-- `_BaseV6._parse_hextet` succeeds: hex digits only, at most 4
characters, and non-empty (`int('', 16)` raises). -/
def validHextet (p : List Char) : Bool :=
  !p.isEmpty && p.all isIpHexDigit && p.length ≤ 4

/-- `_BaseV6._ip_int_from_string` succeeds on a scope-free address:
split on `:`, at least 3 parts; a dotted last part must be a valid IPv4
address and counts as two hextets; at most 9 parts; at most one interior
empty part (`::`); an empty first/last part only next to the `::`; at
least one part skipped by `::` (or exactly 8 parts without one); every
used part a valid hextet. -/
def isValidIPv6Core (h : List Char) : Bool :=
  if h.isEmpty then false else
  let parts0 := splitOnChar ':' h
  if parts0.length < 3 then false else
  let conv : Bool × List (List Char) :=
    match parts0.getLast? with
    | some lp =>
      if lp.contains '.' then
        if isValidIPv4 lp then (true, parts0.dropLast ++ [['0'], ['0']])
        else (false, [])
      else (true, parts0)
    | none => (true, parts0)
  if !conv.1 then false else
  let parts := conv.2
  let n := parts.length
  if n > 9 then false else
  let emptyIdxs := (List.range n).filter
    (fun i => decide (0 < i) && decide (i < n - 1) && (parts.getD i ['x']).isEmpty)
  match emptyIdxs with
  | [] =>
    n == 8 && !(parts.getD 0 ['x']).isEmpty && !(parts.getD (n - 1) ['x']).isEmpty &&
    parts.all validHextet
  | [skip] =>
    let headEmpty := (parts.getD 0 ['x']).isEmpty
    let lastEmpty := (parts.getD (n - 1) ['x']).isEmpty
    if headEmpty && skip != 1 then false
    else if lastEmpty && (n - skip) != 2 then false
    else
      let hi := if headEmpty then skip - 1 else skip
      let lo := if lastEmpty then n - skip - 2 else n - skip - 1
      if 8 ≤ hi + lo then false
      else (parts.take hi).all validHextet && (parts.drop (n - lo)).all validHextet
  | _ :: _ :: _ => false

/-- `IPv6Address.__init__` accepts the string: no `/`, an optional
`%scope` suffix (scope non-empty, containing no further `%`), and a
parseable address. -/
def isValidIPv6 (h : List Char) : Bool :=
  if h.contains '/' then false
  else if h.contains '%' then
    let addr := h.takeWhile (fun c => c ≠ '%')
    let scope := h.drop (addr.length + 1)
    !scope.isEmpty && !scope.contains '%' && isValidIPv6Core addr
  else isValidIPv6Core h

/-- Python `repr` of the host as interpolated into `ip_address`'s error
message, modelled as plain single-quoting (exact for hosts free of
quotes, backslashes and unprintable characters). -/
def pyReprQuoted (h : List Char) : String := "'" ++ String.mk h ++ "'"

/-- `urllib.parse._check_bracketed_host`: a host starting with `v` must
match `v[0-9a-fA-F]+\..+` (the `.+` cannot meet a newline here, every
LF was removed from the URL); otherwise `ip_address` must yield an IPv6
address -- a valid IPv4 address or an unparseable host raises.  Since no
character of the regex's hex class is `.`, the backtracking match
succeeds exactly when the maximal hex-digit prefix after `v` is
non-empty and is followed by `.` and at least one more character. -/
def checkBracketedHost (host : List Char) : Except String Unit :=
  match host with
  | 'v' :: t =>
    let hp := t.takeWhile isIpHexDigit
    let rest := t.drop hp.length
    if !hp.isEmpty && rest.head? == some '.' && decide (2 ≤ rest.length) then
      Except.ok ()
    else Except.error "IPvFuture address is invalid"
  | _ =>
    if isValidIPv4 host then Except.error "An IPv4 address cannot be in brackets"
    else if isValidIPv6 host then Except.ok ()
    else Except.error (pyReprQuoted host ++ " does not appear to be an IPv4 or IPv6 address")

/-- After the scheme, a netloc exists exactly when the rest starts with
`//`; it extends to the next `/`, `?` or `#`.  An unmatched `[` or `]`
raises `ValueError("Invalid IPv6 URL")`; a matched pair triggers
`_check_bracketed_host` on the text between the first `[` and the
following `]`. -/
def splitNetloc (u : List Char) : Except String String :=
  match u with
  | '/' :: '/' :: rest =>
    let nl := rest.takeWhile (fun c => !(c == '/' || c == '?' || c == '#'))
    if (nl.contains '[' && !nl.contains ']') ||
        (nl.contains ']' && !nl.contains '[') then
      Except.error "Invalid IPv6 URL"
    else if nl.contains '[' && nl.contains ']' then
      let host := ((nl.dropWhile (fun c => c ≠ '[')).drop 1).takeWhile (fun c => c ≠ ']')
      match checkBracketedHost host with
      | Except.error e => Except.error e
      | Except.ok _ => Except.ok (String.mk nl)
    else Except.ok (String.mk nl)
  | _ => Except.ok ""

/-- The code points whose NFKC normalization contains one of `/?#@:`
(machine-derived from the Unicode data CPython 3.11's `unicodedata`
uses): `⁇ ⁈ ⁉ ℀ ℁ ℅ ℆ ⩴ ︓ ︖ ﹕ ﹖ ﹟ ﹫ ＃ ／ ： ？ ＠`. -/
def nfkcSpecialChars : List Char :=
  [0x2047, 0x2048, 0x2049, 0x2100, 0x2101, 0x2105, 0x2106, 0x2A74,
   0xFE13, 0xFE16, 0xFE55, 0xFE56, 0xFE5F, 0xFE6B, 0xFF03, 0xFF0F,
   0xFF1A, 0xFF1F, 0xFF20].map Char.ofNat

/-- `urllib.parse._checknetloc`: an empty or all-ASCII netloc passes;
otherwise, with `'@' ':' '#' '?'` removed, it raises exactly when NFKC
normalization changes the remainder and the result contains one of
`/?#@:`.  None of those five characters occurs in any canonical
decomposition, has a non-zero combining class, or is a composition
target, so the NFKC result contains one of them precisely when some
remaining character expands to one -- the per-character set
`nfkcSpecialChars` -- and that also forces the normalization to change
the string, collapsing the two raise conditions into the one test below. -/
def checknetloc (netloc : List Char) : Except String Unit :=
  if netloc.isEmpty || netloc.all (fun c => c.toNat ≤ 127) then Except.ok ()
  else
    let n := netloc.filter (fun c => !(c == '@' || c == ':' || c == '#' || c == '?'))
    if n.any (fun c => nfkcSpecialChars.contains c) then
      Except.error ("netloc '" ++ String.mk netloc ++
        "' contains invalid characters under NFKC normalization")
    else Except.ok ()

/-- The two components of the parse result used by `validate_url`. -/
structure ParseResult where
  scheme : String
  netloc : String
deriving Repr, DecidableEq

/-- `urlparse(url)`, restricted to the components the code reads; the
bracket checks raise before `_checknetloc`, as in `urlsplit`. -/
def pyUrlparse (url : String) : Except String ParseResult :=
  let u := cleanUrl url
  let p := splitScheme u
  match splitNetloc p.2 with
  | Except.error e => Except.error e
  | Except.ok nl =>
    match checknetloc nl.toList with
    | Except.error e => Except.error e
    | Except.ok _ => Except.ok ⟨p.1, nl⟩

/-! ### `create_short_url.py` constants and helpers -/

def SHORT_CODE_LENGTH : Nat := 6

def MAX_RETRIES : Nat := 5

def ALLOWED_PROTOCOLS : List String := ["http", "https"]

/-- `validate_url` from `create_short_url.py`, lines 35-50. -/
def validate_url (url : PyVal) : Bool × Option String :=
  if !pyTruthy url || !isStr url then
    (false, some "URL is required and must be a string")
  else
    match url with
    | .vstr s =>
      match pyUrlparse s with
      | Except.error e => (false, some ("Invalid URL format: " ++ e))
      | Except.ok pr =>
        if pr.scheme.isEmpty then
          (false, some "URL must include protocol (http:// or https://)")
        else if pr.scheme ∉ ALLOWED_PROTOCOLS then
          (false, some "Only ['http', 'https'] protocols are allowed")
        else if pr.netloc.isEmpty then
          (false, some "URL must include a valid domain")
        else
          (true, none)
    | _ => (false, some "URL is required and must be a string")

/-- `string.ascii_letters + string.digits`: the 62-symbol alphabet. -/
def shortCodeChars : List Char :=
  ("abcdefghijklmnopqrstuvwxyzABCDEFGHIJKLMNOPQRSTUVWXYZ0123456789").toList

theorem shortCodeChars_length : shortCodeChars.length = 62 := rfl

/-- `generate_short_code` from `create_short_url.py`, lines 30-33; the
random draw of `random.choice(chars)` at position `i` is `pick i`. -/
def generate_short_code (length : Nat) (pick : Nat → Fin 62) : String :=
  String.mk ((List.range length).map fun i =>
    shortCodeChars.get (Fin.cast shortCodeChars_length.symm (pick i)))

/-- Python `str.isalnum()` (ASCII model; every string produced by this
development is ASCII). -/
def pyIsAlnum (s : String) : Bool := !s.isEmpty && s.toList.all Char.isAlphanum

/-! ### The store -/

/-- A persisted DynamoDB item; attributes a record may lack are optional. -/
structure Item where
  long_url : Option String := none
  created_at : Option String := none
  click_count : Option Int := none
  is_active : Option Bool := none
  created_by_ip : Option String := none
deriving Repr, DecidableEq

/-- The DynamoDB table, keyed by `short_code`. -/
abbrev Store := String → Option Item

/-- `table.put_item` (unconditional overwrite at the key). -/
def storePut (s : Store) (code : String) (item : Item) : Store :=
  fun c => if c = code then some item else s c

/-- The clickCount a reader observes (`item.get('click_count', 0)` /
DynamoDB `ADD` base value). -/
def clickCountOf (it : Item) : Int := it.click_count.getD 0

/-- The item written by `create_short_url_record` (lines 61-77): the IP is
recorded only when truthy. -/
def mkItem (long_url : String) (now : String) (clientIp : Option String) : Item :=
  { long_url := some long_url
    created_at := some now
    click_count := some 0
    is_active := some true
    created_by_ip :=
      match clientIp with
      | some ip => if ip.isEmpty then none else some ip
      | none => none }

/-! ### Create handler -/

/-- The string payload of a `PyVal` (only ever used after validation has
established that the value is a string). -/
def pyStrVal : PyVal → String
  | .vstr s => s
  | _ => ""

/-- Outcome of the generation loop, carrying the number of existence
checks performed (`get_item` calls, including one that raised). -/
inductive GenOutcome where
  | found (code : String) (checks : Nat)
  | exhausted (checks : Nat)
  | dbFail (checks : Nat)
deriving Repr, DecidableEq

/-- The `for attempt in range(MAX_RETRIES)` loop of `lambda_handler`
(lines 117-123): one existence check per attempt, first absent candidate
accepted, `checkFail i` models `get_item` raising `ClientError` on the
`i`-th check (which `check_short_code_exists` converts to
`URLShortenerError`). -/
def genLoop (s : Store) (checkFail : Nat → Bool) (gen : Nat → String) :
    Nat → Nat → GenOutcome
  | attempt, 0 => .exhausted attempt
  | attempt, remaining + 1 =>
    if checkFail attempt then .dbFail (attempt + 1)
    else if (s (gen attempt)).isSome then
      genLoop s checkFail gen (attempt + 1) remaining
    else .found (gen attempt) (attempt + 1)

/-- HTTP-level response body, restricted to what the handlers emit. -/
inductive Body where
  | empty
  | errMsg (msg : String)
  | created (short_url short_code original_url created_at : String)
  | stats (short_code : String) (original_url : Option String)
      (created_at : Option String) (click_count : Int) (is_active : Bool)
deriving Repr, DecidableEq

/-- An API Gateway response: status, optional `Location` header, body. -/
structure Response where
  statusCode : Nat
  location : Option String := none
  body : Body
deriving Repr, DecidableEq

/-- `lambda_handler` of `create_short_url.py` (lines 90-170).
`requestBody` is the result of `json.loads(event['body']).get('url')`
(`Except.error` = invalid JSON); `gen i` is the candidate produced by
`generate_short_code()` on attempt `i`; `putFail` models `put_item`
raising; `domain` is `event['requestContext']['domainName']` (its absence
raises `KeyError`, caught by the top-level handler); `nowRecord` and
`nowResponse` are the two distinct `datetime.utcnow()` reads at lines 67
and 146.  Returns the response and the resulting store. -/
def create_lambda_handler (s : Store) (requestBody : Except Unit PyVal)
    (gen : Nat → String) (checkFail : Nat → Bool) (putFail : Bool)
    (clientIp : Option String) (domain : Option String)
    (nowRecord nowResponse : String) : Response × Store :=
  match requestBody with
  | Except.error _ =>
    ({ statusCode := 400, body := .errMsg "Invalid JSON in request body" }, s)
  | Except.ok urlVal =>
    match validate_url urlVal with
    | (false, msg) => ({ statusCode := 400, body := .errMsg (msg.getD "") }, s)
    | (true, _) =>
      let u := pyStrVal urlVal
      match genLoop s checkFail gen 0 MAX_RETRIES with
      | .dbFail _ =>
        ({ statusCode := 500,
           body := .errMsg "Database error while checking short code" }, s)
      | .exhausted _ =>
        ({ statusCode := 500,
           body := .errMsg "Failed to generate unique short code" }, s)
      | .found code _ =>
        if code.isEmpty then
          ({ statusCode := 500,
             body := .errMsg "Failed to generate unique short code" }, s)
        else if putFail then
          ({ statusCode := 500, body := .errMsg "Failed to create short URL" }, s)
        else
          let s' := storePut s code (mkItem u nowRecord clientIp)
          match domain with
          | none => ({ statusCode := 500, body := .errMsg "Internal server error" }, s')
          | some d =>
            ({ statusCode := 201,
               body := .created ("https://" ++ d ++ "/" ++ code) code u nowResponse },
             s')

/-! ### Redirect handler -/

/-- `increment_click_count` (redirect_url.py lines 30-41): a conditional
atomic `ADD click_count 1`; a raised `ClientError` (including the
condition failing because the key vanished) is caught and leaves the
store unchanged.  DynamoDB `ADD` treats a missing attribute as 0. -/
def increment_click_count (s : Store) (code : String) (updFail : Bool) : Store :=
  if updFail then s
  else
    match s code with
    | none => s
    | some item => storePut s code { item with click_count := some (clickCountOf item + 1) }

/-- Result of a redirect invocation: response, resulting store, and
whether the click-count increment was issued. -/
structure RedirectOutcome where
  response : Response
  store : Store
  incrementIssued : Bool

/-- `lambda_handler` of `redirect_url.py` (lines 53-141).  `shortCode` is
`event['pathParameters'].get('shortCode')`; `getFail` models `get_item`
raising `ClientError`; `updFail` models `update_item` raising.  A found,
active record lacking `long_url` raises `KeyError` (line 111), caught by
the top-level handler before any increment. -/
def redirect_lambda_handler (s : Store) (shortCode : Option String)
    (getFail : Bool) (updFail : Bool) : RedirectOutcome :=
  match shortCode with
  | none => ⟨{ statusCode := 400, body := .errMsg "Short code is required" }, s, false⟩
  | some code =>
    if code.isEmpty then
      ⟨{ statusCode := 400, body := .errMsg "Short code is required" }, s, false⟩
    else if !pyIsAlnum code then
      ⟨{ statusCode := 400, body := .errMsg "Invalid short code format" }, s, false⟩
    else if getFail then
      ⟨{ statusCode := 500, body := .errMsg "Internal server error" }, s, false⟩
    else
      match s code with
      | none => ⟨{ statusCode := 404, body := .errMsg "Short URL not found" }, s, false⟩
      | some item =>
        if !(item.is_active.getD true) then
          ⟨{ statusCode := 410, body := .errMsg "Short URL is no longer active" }, s, false⟩
        else
          match item.long_url with
          | none => ⟨{ statusCode := 500, body := .errMsg "Internal server error" }, s, false⟩
          | some url =>
            ⟨{ statusCode := 301, location := some url, body := .empty },
             increment_click_count s code updFail, true⟩

/-! ### Analytics handler -/

/-- `lambda_handler` of `get_analytics.py` (lines 41-97), with
`get_short_url_stats` (lines 21-39) inlined at its single call site;
`getFail` models `get_item` raising (converted to `URLShortenerError`
whose message the handler returns).  The handler performs no write, so it
returns the store unchanged. -/
def get_analytics_handler (s : Store) (shortCode : Option String)
    (getFail : Bool) : Response × Store :=
  match shortCode with
  | none => ({ statusCode := 400, body := .errMsg "Short code is required" }, s)
  | some code =>
    if code.isEmpty then
      ({ statusCode := 400, body := .errMsg "Short code is required" }, s)
    else if !pyIsAlnum code then
      ({ statusCode := 400, body := .errMsg "Invalid short code format" }, s)
    else if getFail then
      ({ statusCode := 500, body := .errMsg "Failed to retrieve URL statistics" }, s)
    else
      match s code with
      | none => ({ statusCode := 404, body := .errMsg "Short URL not found" }, s)
      | some item =>
        ({ statusCode := 200,
           body := .stats code item.long_url item.created_at
             (item.click_count.getD 0) (item.is_active.getD true) }, s)

/-! ### Helper lemmas -/

theorem generate_short_code_length (n : Nat) (pick : Nat → Fin 62) :
    (generate_short_code n pick).length = n := by
  simp [generate_short_code, String.length]

theorem generate_short_code_mem (n : Nat) (pick : Nat → Fin 62) (c : Char)
    (hc : c ∈ (generate_short_code n pick).toList) : c ∈ shortCodeChars := by
  simp only [generate_short_code, String.toList, List.mem_map, List.mem_range] at hc
  obtain ⟨i, _, rfl⟩ := hc
  exact List.mem_iff_get.mpr ⟨_, rfl⟩

theorem shortCodeChars_alnum : ∀ c ∈ shortCodeChars, c.isAlphanum = true := by decide

theorem generate_short_code_isEmpty (n : Nat) (pick : Nat → Fin 62) (hn : 0 < n) :
    (generate_short_code n pick).isEmpty = false := by
  rcases he : (generate_short_code n pick).isEmpty
  · rfl
  · exfalso
    have h0 : generate_short_code n pick = "" := (String.isEmpty_iff _).mp he
    have h := generate_short_code_length n pick
    rw [h0] at h
    have h1 : ("" : String).length = 0 := rfl
    omega

theorem generate_short_code_alnum (n : Nat) (pick : Nat → Fin 62) (hn : 0 < n) :
    pyIsAlnum (generate_short_code n pick) = true := by
  unfold pyIsAlnum
  rw [generate_short_code_isEmpty n pick hn]
  simp only [Bool.not_false, Bool.true_and, List.all_eq_true, decide_eq_true_eq]
  exact fun c hc => shortCodeChars_alnum c (generate_short_code_mem n pick c hc)

theorem pyIsAlnum_not_empty (code : String) (h : pyIsAlnum code = true) :
    code.isEmpty = false := by
  rcases he : code.isEmpty
  · rfl
  · simp [pyIsAlnum, he] at h

theorem genLoop_found_first (s : Store) (gen : Nat → String) (a r i : Nat)
    (hi : i < r) (hbefore : ∀ j, j < i → (s (gen (a + j))).isSome = true)
    (habs : s (gen (a + i)) = none) :
    genLoop s (fun _ => false) gen a r = .found (gen (a + i)) (a + i + 1) := by
  induction r generalizing a i with
  | zero => omega
  | succ r ih =>
    rcases i with _ | k
    · have habs' : s (gen a) = none := by simpa using habs
      simp [genLoop, habs']
    · have h0 : (s (gen a)).isSome = true := by simpa using hbefore 0 (by omega)
      have hb : ∀ j, j < k → (s (gen (a + 1 + j))).isSome = true := fun j hj => by
        have := hbefore (j + 1) (by omega)
        rwa [show a + (j + 1) = a + 1 + j by omega] at this
      have ha : s (gen (a + 1 + k)) = none := by
        rwa [show a + (k + 1) = a + 1 + k by omega] at habs
      have hrec := ih (a + 1) k (by omega) hb ha
      rw [show a + (k + 1) = a + 1 + k by omega]
      simpa [genLoop, h0] using hrec

theorem genLoop_all_present (s : Store) (gen : Nat → String) (a r : Nat)
    (hall : ∀ j, j < r → (s (gen (a + j))).isSome = true) :
    genLoop s (fun _ => false) gen a r = .exhausted (a + r) := by
  induction r generalizing a with
  | zero => simp [genLoop]
  | succ r ih =>
    have h0 : (s (gen a)).isSome = true := by simpa using hall 0 (by omega)
    have hb : ∀ j, j < r → (s (gen (a + 1 + j))).isSome = true := fun j hj => by
      have := hall (j + 1) (by omega)
      rwa [show a + (j + 1) = a + 1 + j by omega] at this
    have hrec := ih (a + 1) hb
    rw [show a + (r + 1) = a + 1 + r by omega]
    simpa [genLoop, h0] using hrec

theorem genLoop_found_inv (s : Store) (cf : Nat → Bool) (gen : Nat → String)
    (a r : Nat) (code : String) (k : Nat)
    (h : genLoop s cf gen a r = .found code k) :
    s code = none ∧ ∃ i, code = gen i := by
  induction r generalizing a with
  | zero => exact absurd h (by simp [genLoop])
  | succ r ih =>
    rcases hcf : cf a
    · rcases hs : (s (gen a)).isSome
      · have hnone : s (gen a) = none := Option.not_isSome_iff_eq_none.mp (by simp [hs])
        simp [genLoop, hcf, hs] at h
        exact ⟨h.1 ▸ hnone, a, h.1.symm⟩
      · simp [genLoop, hcf, hs] at h
        exact ih (a + 1) h
    · simp [genLoop, hcf] at h

/-! ### Claim theorems -/

/-- C7: every code produced by `generate_short_code` with the configured
length has exactly 6 characters, each drawn from the 62-symbol
alphanumeric alphabet, and passes the redirector's `isalnum` pre-filter. -/
theorem generate_short_code_spec (pick : Nat → Fin 62) :
    (generate_short_code SHORT_CODE_LENGTH pick).length = 6 ∧
    (∀ c ∈ (generate_short_code SHORT_CODE_LENGTH pick).toList,
      c ∈ shortCodeChars ∧ c.isAlphanum = true) ∧
    shortCodeChars.length = 62 ∧
    pyIsAlnum (generate_short_code SHORT_CODE_LENGTH pick) = true := by
  refine ⟨generate_short_code_length _ _, fun c hc => ?_, rfl,
    generate_short_code_alnum _ _ (by decide)⟩
  have hm := generate_short_code_mem _ pick c hc
  exact ⟨hm, shortCodeChars_alnum c hm⟩

/-- C7 witness: a concrete choice sequence. -/
theorem generate_short_code_spec_witness :
    (generate_short_code SHORT_CODE_LENGTH (fun _ => 0)).length = 6 ∧
    pyIsAlnum (generate_short_code SHORT_CODE_LENGTH (fun _ => 0)) = true :=
  ⟨(generate_short_code_spec (fun _ => 0)).1,
   (generate_short_code_spec (fun _ => 0)).2.2.2⟩

/-- C4: a record found with `is_active = false` always yields the 410
inactive outcome, never the 404 not-found outcome and never the 301
success outcome. -/
theorem redirect_inactive_gone (s : Store) (code : String) (item : Item) (updFail : Bool)
    (halnum : pyIsAlnum code = true) (hfound : s code = some item)
    (hinactive : item.is_active = some false) :
    (redirect_lambda_handler s (some code) false updFail).response =
      { statusCode := 410, body := .errMsg "Short URL is no longer active" } ∧
    (redirect_lambda_handler s (some code) false updFail).response.statusCode ≠ 404 ∧
    (redirect_lambda_handler s (some code) false updFail).response.statusCode ≠ 301 := by
  have hne := pyIsAlnum_not_empty code halnum
  have hresp : (redirect_lambda_handler s (some code) false updFail).response =
      { statusCode := 410, body := .errMsg "Short URL is no longer active" } := by
    simp [redirect_lambda_handler, hne, halnum, hfound, hinactive]
  exact ⟨hresp, by rw [hresp]; decide, by rw [hresp]; decide⟩

/-- C4 witness: concrete inactive record. -/
theorem redirect_inactive_gone_witness :
    pyIsAlnum "abc123" = true ∧
    ((fun c => if c = "abc123" then
        some { long_url := some "http://example.com", is_active := some false : Item }
      else none) : Store) "abc123" =
      some { long_url := some "http://example.com", is_active := some false : Item } ∧
    (redirect_lambda_handler
      (fun c => if c = "abc123" then
        some { long_url := some "http://example.com", is_active := some false : Item }
      else none) (some "abc123") false false).response =
      { statusCode := 410, body := .errMsg "Short URL is no longer active" } :=
  ⟨by decide, rfl, (redirect_inactive_gone _ "abc123"
    { long_url := some "http://example.com", is_active := some false : Item } false
    (by decide) rfl rfl).1⟩

/-- C5: when the record is found and active, a failing click-count
increment is swallowed: the handler returns exactly the same response as
when the increment succeeds, namely the 301 redirect whose `Location` is
the stored destination URL. -/
theorem redirect_increment_failure_isolated (s : Store) (code : String) (item : Item)
    (url : String) (halnum : pyIsAlnum code = true) (hfound : s code = some item)
    (hactive : item.is_active.getD true = true) (hurl : item.long_url = some url) :
    (redirect_lambda_handler s (some code) false true).response =
      (redirect_lambda_handler s (some code) false false).response ∧
    (redirect_lambda_handler s (some code) false true).response =
      { statusCode := 301, location := some url, body := .empty } := by
  have hne := pyIsAlnum_not_empty code halnum
  have h : ∀ u : Bool, (redirect_lambda_handler s (some code) false u).response =
      { statusCode := 301, location := some url, body := .empty } := by
    intro u
    simp [redirect_lambda_handler, hne, halnum, hfound, hactive, hurl]
  exact ⟨(h true).trans (h false).symm, h true⟩

/-- C5 witness: concrete active record, failing increment. -/
theorem redirect_increment_failure_isolated_witness :
    pyIsAlnum "abc123" = true ∧
    (redirect_lambda_handler
      (fun c => if c = "abc123" then
        some { long_url := some "http://example.com", is_active := some true : Item }
      else none) (some "abc123") false true).response =
      { statusCode := 301, location := some "http://example.com", body := .empty } :=
  ⟨by decide, (redirect_increment_failure_isolated _ "abc123"
    { long_url := some "http://example.com", is_active := some true : Item }
    "http://example.com" (by decide) rfl rfl rfl).2⟩

/-- C10: a stored record lacking `is_active` is treated as active: the
redirector redirects (301 to the stored URL) and issues the increment,
and the analytics reader reports `is_active` as `true`; a record lacking
`click_count` is reported with `click_count = 0`. -/
theorem missing_attribute_defaults (s : Store) (code : String) (item : Item)
    (url : String) (updFail : Bool)
    (halnum : pyIsAlnum code = true) (hfound : s code = some item)
    (hnoactive : item.is_active = none) (hurl : item.long_url = some url) :
    (redirect_lambda_handler s (some code) false updFail).response =
      { statusCode := 301, location := some url, body := .empty } ∧
    (redirect_lambda_handler s (some code) false updFail).incrementIssued = true ∧
    (get_analytics_handler s (some code) false).1 =
      { statusCode := 200,
        body := .stats code (some url) item.created_at (item.click_count.getD 0) true } ∧
    (item.click_count = none →
      (get_analytics_handler s (some code) false).1 =
        { statusCode := 200,
          body := .stats code (some url) item.created_at 0 true }) := by
  have hne := pyIsAlnum_not_empty code halnum
  have hact : item.is_active.getD true = true := by rw [hnoactive]; rfl
  refine ⟨?_, ?_, ?_, ?_⟩
  · simp [redirect_lambda_handler, hne, halnum, hfound, hact, hurl]
  · simp [redirect_lambda_handler, hne, halnum, hfound, hact, hurl]
  · simp [get_analytics_handler, hne, halnum, hfound, hurl, hnoactive]
  · intro hnoclick
    simp [get_analytics_handler, hne, halnum, hfound, hurl, hnoactive, hnoclick]

/-- C10 witness: concrete record lacking both `is_active` and
`click_count`. -/
theorem missing_attribute_defaults_witness :
    pyIsAlnum "abc123" = true ∧
    (redirect_lambda_handler
      (fun c => if c = "abc123" then some { long_url := some "http://example.com" : Item }
       else none) (some "abc123") false false).response =
      { statusCode := 301, location := some "http://example.com", body := .empty } ∧
    (get_analytics_handler
      (fun c => if c = "abc123" then some { long_url := some "http://example.com" : Item }
       else none) (some "abc123") false).1 =
      { statusCode := 200,
        body := .stats "abc123" (some "http://example.com") none 0 true } := by
  have h := missing_attribute_defaults
    (fun c => if c = "abc123" then some { long_url := some "http://example.com" : Item }
     else none) "abc123" { long_url := some "http://example.com" : Item }
    "http://example.com" false (by decide) rfl rfl rfl
  exact ⟨by decide, h.1, h.2.2.2 rfl⟩

/-- C9: a redirect invocation that does not reach the 301 success outcome
issues no click-count increment and leaves the store unchanged; and
whenever the increment is issued, the record was found and active, its
stored URL is the destination, and the response is the 301 redirect to
it. -/
theorem redirect_increment_only_on_success (s : Store) (sc : Option String)
    (getFail updFail : Bool) :
    ((redirect_lambda_handler s sc getFail updFail).response.statusCode ≠ 301 →
      (redirect_lambda_handler s sc getFail updFail).incrementIssued = false ∧
      (redirect_lambda_handler s sc getFail updFail).store = s) ∧
    ((redirect_lambda_handler s sc getFail updFail).incrementIssued = true →
      ∃ code item url, sc = some code ∧ s code = some item ∧
        item.is_active.getD true = true ∧ item.long_url = some url ∧
        (redirect_lambda_handler s sc getFail updFail).response =
          { statusCode := 301, location := some url, body := .empty }) := by
  rcases sc with _ | code
  · exact ⟨fun _ => ⟨rfl, rfl⟩, fun h => by simp [redirect_lambda_handler] at h⟩
  rcases he : code.isEmpty
  · rcases ha : pyIsAlnum code
    · constructor
      · intro _
        constructor <;> simp [redirect_lambda_handler, he, ha]
      · intro h
        simp [redirect_lambda_handler, he, ha] at h
    · rcases getFail
      · rcases hi : s code with _ | item
        · constructor
          · intro _
            constructor <;> simp [redirect_lambda_handler, he, ha, hi]
          · intro h
            simp [redirect_lambda_handler, he, ha, hi] at h
        · rcases hact : item.is_active.getD true
          · constructor
            · intro _
              constructor <;> simp [redirect_lambda_handler, he, ha, hi, hact]
            · intro h
              simp [redirect_lambda_handler, he, ha, hi, hact] at h
          · rcases hu : item.long_url with _ | url
            · constructor
              · intro _
                constructor <;> simp [redirect_lambda_handler, he, ha, hi, hact, hu]
              · intro h
                simp [redirect_lambda_handler, he, ha, hi, hact, hu] at h
            · constructor
              · intro hne
                exfalso
                apply hne
                simp [redirect_lambda_handler, he, ha, hi, hact, hu]
              · intro _
                exact ⟨code, item, url, rfl, hi, hact, hu, by
                  simp [redirect_lambda_handler, he, ha, hi, hact, hu]⟩
      · constructor
        · intro _
          constructor <;> simp [redirect_lambda_handler, he, ha]
        · intro h
          simp [redirect_lambda_handler, he, ha] at h
  · constructor
    · intro _
      constructor <;> simp [redirect_lambda_handler, he]
    · intro h
      simp [redirect_lambda_handler, he] at h

/-- C9 witness: a not-found lookup issues no increment and leaves the
store unchanged. -/
theorem redirect_increment_only_on_success_witness :
    (redirect_lambda_handler (fun _ => none) (some "abc123") false false).response.statusCode
        ≠ 301 ∧
    (redirect_lambda_handler (fun _ => none) (some "abc123") false false).incrementIssued
        = false ∧
    (redirect_lambda_handler (fun _ => none) (some "abc123") false false).store =
      (fun _ => none : Store) := by
  have h := (redirect_increment_only_on_success (fun _ => none) (some "abc123")
    false false).1 (by decide)
  exact ⟨by decide, h.1, h.2⟩

/-- C3: for every valid input URL, the creation loop checks one candidate
per attempt; the first candidate whose existence check reports absent is
accepted after exactly `i + 1` checks; and when all `MAX_RETRIES = 5`
checks report present, the loop performs exactly 5 checks and the handler
writes nothing and returns the exhausted-retries 500 error, independent
of the input URL. -/
theorem create_collision_protocol (s : Store) (gen : Nat → String) (urlVal : PyVal)
    (clientIp domain : Option String) (n1 n2 : String) (putFail : Bool)
    (hvalid : (validate_url urlVal).1 = true) :
    (∀ i, i < MAX_RETRIES → (∀ j, j < i → (s (gen j)).isSome = true) →
      s (gen i) = none →
      genLoop s (fun _ => false) gen 0 MAX_RETRIES = .found (gen i) (i + 1)) ∧
    ((∀ i, i < MAX_RETRIES → (s (gen i)).isSome = true) →
      genLoop s (fun _ => false) gen 0 MAX_RETRIES = .exhausted MAX_RETRIES ∧
      create_lambda_handler s (.ok urlVal) gen (fun _ => false) putFail clientIp
          domain n1 n2 =
        ({ statusCode := 500,
           body := .errMsg "Failed to generate unique short code" }, s)) := by
  constructor
  · intro i hi hb habs
    have := genLoop_found_first s gen 0 MAX_RETRIES i hi
      (fun j hj => by simpa using hb j hj) (by simpa using habs)
    simpa using this
  · intro hall
    have hgl : genLoop s (fun _ => false) gen 0 MAX_RETRIES = .exhausted MAX_RETRIES := by
      have := genLoop_all_present s gen 0 MAX_RETRIES
        (fun j hj => by simpa using hall j hj)
      simpa using this
    refine ⟨hgl, ?_⟩
    rcases hv : validate_url urlVal with ⟨b, m⟩
    rcases b
    · rw [hv] at hvalid
      simp at hvalid
    · simp [create_lambda_handler, hv, hgl]

/-- C3 witness: a store that always reports present exhausts the 5
retries. -/
theorem create_collision_protocol_witness :
    (validate_url (.vstr "http://example.com")).1 = true ∧
    genLoop (fun _ => some ({} : Item)) (fun _ => false) (fun _ => "aaaaaa") 0
        MAX_RETRIES = .exhausted MAX_RETRIES ∧
    create_lambda_handler (fun _ => some ({} : Item)) (.ok (.vstr "http://example.com"))
        (fun _ => "aaaaaa") (fun _ => false) false none none "t1" "t2" =
      ({ statusCode := 500, body := .errMsg "Failed to generate unique short code" },
        (fun _ => some ({} : Item) : Store)) := by
  have h := (create_collision_protocol (fun _ => some ({} : Item)) (fun _ => "aaaaaa")
    (.vstr "http://example.com") none none "t1" "t2" false (by decide)).2
    (fun i _ => rfl)
  exact ⟨by decide, h.1, h.2⟩

theorem create_preserves (s : Store) (rb : Except Unit PyVal) (gen : Nat → String)
    (cf : Nat → Bool) (pf : Bool) (ip dom : Option String) (n1 n2 : String)
    (c : String) (it : Item) (hbefore : s c = some it) :
    (create_lambda_handler s rb gen cf pf ip dom n1 n2).2 c = some it := by
  rcases rb with _ | v
  · exact hbefore
  rcases hv : validate_url v with ⟨b, m⟩
  rcases b
  · simp [create_lambda_handler, hv]
    exact hbefore
  cases hg : genLoop s cf gen 0 MAX_RETRIES with
  | found code k =>
    have hnone := (genLoop_found_inv s cf gen 0 MAX_RETRIES code k hg).1
    have hne : ¬(c = code) := fun h => by rw [h, hnone] at hbefore; cases hbefore
    rcases he : code.isEmpty
    · rcases pf
      · rcases dom with _ | d
        · simp [create_lambda_handler, hv, hg, he, storePut, hne]
          exact hbefore
        · simp [create_lambda_handler, hv, hg, he, storePut, hne]
          exact hbefore
      · simp [create_lambda_handler, hv, hg, he]
        exact hbefore
    · simp [create_lambda_handler, hv, hg, he]
      exact hbefore
  | exhausted k =>
    simp [create_lambda_handler, hv, hg]
    exact hbefore
  | dbFail k =>
    simp [create_lambda_handler, hv, hg]
    exact hbefore

theorem increment_preserves (s : Store) (code : String) (uf : Bool) (c : String)
    (it : Item) (hbefore : s c = some it) :
    ∃ it', increment_click_count s code uf c = some it' ∧
      it'.long_url = it.long_url ∧ clickCountOf it ≤ clickCountOf it' ∧
      (it' = it ∨ it' = { it with click_count := some (clickCountOf it + 1) }) := by
  rcases uf
  · rcases hs : s code with _ | item0
    · exact ⟨it, by simp [increment_click_count, hs]; exact hbefore, rfl, le_refl _,
        Or.inl rfl⟩
    · by_cases hc : c = code
      · subst hc
        rw [hbefore] at hs
        obtain rfl : it = item0 := by cases hs; rfl
        refine ⟨{ it with click_count := some (clickCountOf it + 1) }, ?_, rfl, ?_,
          Or.inr rfl⟩
        · simp [increment_click_count, hbefore, storePut]
        · simp [clickCountOf]
      · exact ⟨it, by simp [increment_click_count, hs, storePut, hc]; exact hbefore,
          rfl, le_refl _, Or.inl rfl⟩
  · exact ⟨it, hbefore, rfl, le_refl _, Or.inl rfl⟩

theorem redirect_preserves (s : Store) (sc : Option String) (gf uf : Bool)
    (c : String) (it : Item) (hbefore : s c = some it) :
    ∃ it', (redirect_lambda_handler s sc gf uf).store c = some it' ∧
      it'.long_url = it.long_url ∧ clickCountOf it ≤ clickCountOf it' ∧
      (it' = it ∨ ((redirect_lambda_handler s sc gf uf).incrementIssued = true ∧
        it' = { it with click_count := some (clickCountOf it + 1) })) := by
  have triv : ∀ h : (redirect_lambda_handler s sc gf uf).store = s,
      ∃ it', (redirect_lambda_handler s sc gf uf).store c = some it' ∧
        it'.long_url = it.long_url ∧ clickCountOf it ≤ clickCountOf it' ∧
        (it' = it ∨ ((redirect_lambda_handler s sc gf uf).incrementIssued = true ∧
          it' = { it with click_count := some (clickCountOf it + 1) })) :=
    fun h => ⟨it, by rw [h]; exact hbefore, rfl, le_refl _, Or.inl rfl⟩
  rcases sc with _ | code
  · exact triv rfl
  rcases he : code.isEmpty
  · rcases ha : pyIsAlnum code
    · exact triv (by simp [redirect_lambda_handler, he, ha])
    · rcases gf
      · rcases hi : s code with _ | item0
        · exact triv (by simp [redirect_lambda_handler, he, ha, hi])
        · rcases hact : item0.is_active.getD true
          · exact triv (by simp [redirect_lambda_handler, he, ha, hi, hact])
          · rcases hu : item0.long_url with _ | url
            · exact triv (by simp [redirect_lambda_handler, he, ha, hi, hact, hu])
            · have hstore : (redirect_lambda_handler s (some code) false uf).store =
                  increment_click_count s code uf := by
                simp [redirect_lambda_handler, he, ha, hi, hact, hu]
              have hinc : (redirect_lambda_handler s (some code) false uf).incrementIssued
                  = true := by
                simp [redirect_lambda_handler, he, ha, hi, hact, hu]
              obtain ⟨it', h1, h2, h3, h4⟩ := increment_preserves s code uf c it hbefore
              refine ⟨it', by rw [hstore]; exact h1, h2, h3, ?_⟩
              rcases h4 with h4 | h4
              · exact Or.inl h4
              · exact Or.inr ⟨hinc, h4⟩
      · exact triv (by simp [redirect_lambda_handler, he, ha])
  · exact triv (by simp [redirect_lambda_handler, he])

theorem analytics_pure (s : Store) (sc : Option String) (gf : Bool) :
    (get_analytics_handler s sc gf).2 = s := by
  unfold get_analytics_handler
  rcases sc with _ | code
  · rfl
  · dsimp only
    split
    · rfl
    · split
      · rfl
      · split
        · rfl
        · split <;> rfl

/-- C6: within any single invocation of Create, Redirect or Analytics,
every record present before is present afterwards with the same key and
`long_url` and a non-decreased click count; the only click-count mutation
is the redirect path's atomic increment by 1. -/
theorem record_preservation (s : Store) (c : String) (it : Item)
    (rb : Except Unit PyVal) (gen : Nat → String) (cf : Nat → Bool) (pf : Bool)
    (ip dom : Option String) (n1 n2 : String) (sc sc2 : Option String)
    (gf uf gf2 : Bool) (hbefore : s c = some it) :
    (create_lambda_handler s rb gen cf pf ip dom n1 n2).2 c = some it ∧
    (∃ it', (redirect_lambda_handler s sc gf uf).store c = some it' ∧
      it'.long_url = it.long_url ∧ clickCountOf it ≤ clickCountOf it' ∧
      (it' = it ∨ ((redirect_lambda_handler s sc gf uf).incrementIssued = true ∧
        it' = { it with click_count := some (clickCountOf it + 1) }))) ∧
    (get_analytics_handler s sc2 gf2).2 = s :=
  ⟨create_preserves s rb gen cf pf ip dom n1 n2 c it hbefore,
   redirect_preserves s sc gf uf c it hbefore,
   analytics_pure s sc2 gf2⟩

/-- C6 witness: concrete store with one record, concrete invocations of
all three handlers. -/
theorem record_preservation_witness :
    ((fun c => if c = "abc123" then
        some { long_url := some "http://example.com", click_count := some 3,
               is_active := some true : Item }
      else none) : Store) "abc123" =
      some { long_url := some "http://example.com", click_count := some 3,
             is_active := some true : Item } ∧
    ((create_lambda_handler
        (fun c => if c = "abc123" then
          some { long_url := some "http://example.com", click_count := some 3,
                 is_active := some true : Item }
        else none) (.ok (.vstr "http://other.org")) (fun _ => "zzz999")
        (fun _ => false) false none (some "d.example") "t1" "t2").2 "abc123" =
      some { long_url := some "http://example.com", click_count := some 3,
             is_active := some true : Item } ∧
    (∃ it', (redirect_lambda_handler
        (fun c => if c = "abc123" then
          some { long_url := some "http://example.com", click_count := some 3,
                 is_active := some true : Item }
        else none) (some "abc123") false false).store "abc123" = some it' ∧
      it'.long_url = some "http://example.com" ∧
      (3 : Int) ≤ clickCountOf it' ∧
      (it' = { long_url := some "http://example.com", click_count := some 3,
               is_active := some true : Item } ∨
        ((redirect_lambda_handler
          (fun c => if c = "abc123" then
            some { long_url := some "http://example.com", click_count := some 3,
                   is_active := some true : Item }
          else none) (some "abc123") false false).incrementIssued = true ∧
          it' = { long_url := some "http://example.com", click_count := some 4,
                  is_active := some true : Item }))) ∧
    (get_analytics_handler
        (fun c => if c = "abc123" then
          some { long_url := some "http://example.com", click_count := some 3,
                 is_active := some true : Item }
        else none) (some "abc123") false).2 =
      (fun c => if c = "abc123" then
        some { long_url := some "http://example.com", click_count := some 3,
               is_active := some true : Item }
      else none)) := by
  have h := record_preservation
    (fun c => if c = "abc123" then
      some { long_url := some "http://example.com", click_count := some 3,
             is_active := some true : Item }
     else none) "abc123"
    { long_url := some "http://example.com", click_count := some 3,
      is_active := some true : Item }
    (.ok (.vstr "http://other.org")) (fun _ => "zzz999") (fun _ => false) false
    none (some "d.example") "t1" "t2" (some "abc123") (some "abc123")
    false false false rfl
  exact ⟨rfl, h.1, h.2.1, h.2.2⟩

theorem validate_url_true_shape (v : PyVal) (m : Option String)
    (hv : validate_url v = (true, m)) : ∃ u, v = .vstr u ∧ u ≠ "" := by
  rcases v with _ | u | t
  · simp [validate_url, pyTruthy] at hv
  · refine ⟨u, rfl, fun h => ?_⟩
    subst h
    rw [show validate_url (.vstr "") =
      (false, some "URL is required and must be a string") from rfl] at hv
    simp at hv
  · simp [validate_url, isStr] at hv

theorem create_success_inv (s : Store) (urlVal : PyVal) (gen : Nat → String)
    (cf : Nat → Bool) (pf : Bool) (ip dom : Option String) (n1 n2 : String)
    (resp : Response) (s' : Store)
    (hrun : create_lambda_handler s (.ok urlVal) gen cf pf ip dom n1 n2 = (resp, s'))
    (h201 : resp.statusCode = 201) :
    ∃ u d code, urlVal = .vstr u ∧ dom = some d ∧ pf = false ∧
      code.isEmpty = false ∧ (∃ i, code = gen i) ∧ s code = none ∧
      resp = ({ statusCode := 201,
                body := .created ("https://" ++ d ++ "/" ++ code) code u n2 } : Response) ∧
      s' = storePut s code (mkItem u n1 ip) := by
  rcases hv : validate_url urlVal with ⟨b, m⟩
  rcases b
  · rw [create_lambda_handler] at hrun
    simp [hv] at hrun
    rw [← hrun.1] at h201
    simp at h201
  obtain ⟨u, rfl, -⟩ := validate_url_true_shape urlVal m hv
  cases hg : genLoop s cf gen 0 MAX_RETRIES with
  | found code k =>
    obtain ⟨hnone, i, hcode⟩ := genLoop_found_inv s cf gen 0 MAX_RETRIES code k hg
    rcases he : code.isEmpty
    · rcases pf
      · rcases dom with _ | d
        · rw [create_lambda_handler] at hrun
          simp [hv, hg, he] at hrun
          rw [← hrun.1] at h201
          simp at h201
        · rw [create_lambda_handler] at hrun
          simp [hv, hg, he] at hrun
          exact ⟨u, d, code, rfl, rfl, rfl, he, ⟨i, hcode⟩, hnone,
            hrun.1.symm, hrun.2.symm⟩
      · rw [create_lambda_handler] at hrun
        simp [hv, hg, he] at hrun
        rw [← hrun.1] at h201
        simp at h201
    · rw [create_lambda_handler] at hrun
      simp [hv, hg, he] at hrun
      rw [← hrun.1] at h201
      simp at h201
  | exhausted k =>
    rw [create_lambda_handler] at hrun
    simp [hv, hg] at hrun
    rw [← hrun.1] at h201
    simp at h201
  | dbFail k =>
    rw [create_lambda_handler] at hrun
    simp [hv, hg] at hrun
    rw [← hrun.1] at h201
    simp at h201

/-- C8 counterexample: a concrete successful Create invocation in which
the clock advances between the record write (line 67) and the response
build (line 146): the 201 body's `created_at` is the second reading while
the persisted record holds the first, so they differ. -/
theorem create_response_timestamp_mismatch :
    (create_lambda_handler (fun _ => none) (.ok (.vstr "http://example.com"))
        (fun _ => "abc123") (fun _ => false) false none (some "d.example")
        "2024-01-01T00:00:00.000000" "2024-01-01T00:00:00.000017").1 =
      { statusCode := 201,
        body := .created "https://d.example/abc123" "abc123" "http://example.com"
          "2024-01-01T00:00:00.000017" } ∧
    (create_lambda_handler (fun _ => none) (.ok (.vstr "http://example.com"))
        (fun _ => "abc123") (fun _ => false) false none (some "d.example")
        "2024-01-01T00:00:00.000000" "2024-01-01T00:00:00.000017").2 "abc123" =
      some { long_url := some "http://example.com",
             created_at := some "2024-01-01T00:00:00.000000",
             click_count := some 0, is_active := some true, created_by_ip := none } ∧
    ("2024-01-01T00:00:00.000017" : String) ≠ "2024-01-01T00:00:00.000000" :=
  ⟨rfl, rfl, by decide⟩

/-- C8 (amended): on every successful Create, the persisted record's
`created_at` is the clock reading taken when the record was written,
while the 201 body's `created_at` is a second, later clock reading taken
when the response was built; the two agree exactly when those readings
coincide. -/
theorem create_response_timestamp_second_read (s : Store) (urlVal : PyVal)
    (gen : Nat → String) (cf : Nat → Bool) (pf : Bool) (ip dom : Option String)
    (n1 n2 : String) (resp : Response) (s' : Store)
    (hrun : create_lambda_handler s (.ok urlVal) gen cf pf ip dom n1 n2 = (resp, s'))
    (h201 : resp.statusCode = 201) :
    ∃ u d code, urlVal = .vstr u ∧ dom = some d ∧
      resp.body = .created ("https://" ++ d ++ "/" ++ code) code u n2 ∧
      (∃ it, s' code = some it ∧ it.created_at = some n1) ∧
      (n1 = n2 →
        ∃ it, s' code = some it ∧ it.created_at = some n2) := by
  obtain ⟨u, d, code, hu, hd, -, -, -, -, hresp, hs'⟩ :=
    create_success_inv s urlVal gen cf pf ip dom n1 n2 resp s' hrun h201
  have hfind : s' code = some (mkItem u n1 ip) := by
    rw [hs']
    simp [storePut]
  refine ⟨u, d, code, hu, hd, by rw [hresp], ⟨mkItem u n1 ip, hfind, rfl⟩, ?_⟩
  intro hn
  refine ⟨mkItem u n1 ip, hfind, ?_⟩
  rw [← hn]
  exact rfl

/-- C8 (amended) witness: a concrete successful Create. -/
theorem create_response_timestamp_second_read_witness :
    ∃ u d code, (PyVal.vstr "http://example.com") = .vstr u ∧
      (some "d.example" : Option String) = some d ∧
      Response.body { statusCode := 201,
                      body := .created "https://d.example/abc123" "abc123"
                        "http://example.com" "t2" } =
        .created ("https://" ++ d ++ "/" ++ code) code u "t2" ∧
      (∃ it, storePut (fun _ => none) "abc123" (mkItem "http://example.com" "t1" none)
          code = some it ∧ it.created_at = some "t1") ∧
      ("t1" = "t2" →
        ∃ it, storePut (fun _ => none) "abc123" (mkItem "http://example.com" "t1" none)
            code = some it ∧ it.created_at = some "t2") :=
  create_response_timestamp_second_read (fun _ => none) (.vstr "http://example.com")
    (fun _ => "abc123") (fun _ => false) false none (some "d.example") "t1" "t2"
    { statusCode := 201,
      body := .created "https://d.example/abc123" "abc123" "http://example.com" "t2" }
    (storePut (fun _ => none) "abc123" (mkItem "http://example.com" "t1" none))
    (by rfl) rfl

/-- C1: whenever Create succeeds (201) on a valid URL with candidates
drawn by `generate_short_code`, the code it reports resolves, via
Redirect on the resulting store, to a 301 response whose `Location` is
byte-for-byte the originally submitted URL. -/
theorem create_redirect_roundtrip (s : Store) (u : String)
    (pickSeq : Nat → Nat → Fin 62) (cf : Nat → Bool) (pf : Bool)
    (ip dom : Option String) (n1 n2 : String) (updFail : Bool)
    (resp : Response) (s' : Store)
    (hrun : create_lambda_handler s (.ok (.vstr u))
        (fun i => generate_short_code SHORT_CODE_LENGTH (pickSeq i)) cf pf ip dom
        n1 n2 = (resp, s'))
    (h201 : resp.statusCode = 201) :
    ∃ c d, dom = some d ∧
      resp.body = .created ("https://" ++ d ++ "/" ++ c) c u n2 ∧
      (redirect_lambda_handler s' (some c) false updFail).response =
        { statusCode := 301, location := some u, body := .empty } := by
  obtain ⟨u', d, code, hu, hd, -, -, ⟨i, hcode⟩, -, hresp, hs'⟩ :=
    create_success_inv s (.vstr u)
      (fun i => generate_short_code SHORT_CODE_LENGTH (pickSeq i)) cf pf ip dom
      n1 n2 resp s' hrun h201
  obtain rfl : u = u' := by cases hu; rfl
  have halnum : pyIsAlnum code = true := by
    rw [hcode]
    exact generate_short_code_alnum _ _ (by decide)
  have hne := pyIsAlnum_not_empty code halnum
  have hfind : s' code = some (mkItem u n1 ip) := by
    rw [hs']
    simp [storePut]
  refine ⟨code, d, hd, by rw [hresp], ?_⟩
  simp [redirect_lambda_handler, hne, halnum, hfind, mkItem]

/-- C1 witness: a concrete Create on an empty store followed by Redirect
with the produced code. -/
theorem create_redirect_roundtrip_witness :
    ∃ c d, (some "d.example" : Option String) = some d ∧
      Response.body { statusCode := 201,
                      body := .created "https://d.example/aaaaaa" "aaaaaa"
                        "http://example.com" "t2" } =
        .created ("https://" ++ d ++ "/" ++ c) c "http://example.com" "t2" ∧
      (redirect_lambda_handler
        (storePut (fun _ => none) "aaaaaa" (mkItem "http://example.com" "t1" none))
        (some c) false false).response =
      { statusCode := 301, location := some "http://example.com", body := .empty } :=
  create_redirect_roundtrip (fun _ => none) "http://example.com" (fun _ _ => 0)
    (fun _ => false) false none (some "d.example") "t1" "t2" false
    { statusCode := 201,
      body := .created "https://d.example/aaaaaa" "aaaaaa" "http://example.com" "t2" }
    (storePut (fun _ => none) "aaaaaa" (mkItem "http://example.com" "t1" none))
    (by rfl) rfl

/-- C2: `validate_url` accepts exactly the non-empty strings that parse
with scheme `http` or `https` and a non-empty network-location (host)
component; every other input is rejected with the message naming its
specific defect (missing/non-string, no protocol, disallowed protocol,
missing domain, malformed URL). -/
theorem validate_url_spec (v : PyVal) :
    ((validate_url v).1 = true ↔
      (∃ s, v = .vstr s ∧ s ≠ "" ∧
        ∃ pr, pyUrlparse s = Except.ok pr ∧
          (pr.scheme = "http" ∨ pr.scheme = "https") ∧ pr.netloc ≠ "")) ∧
    ((¬ ∃ s, v = .vstr s ∧ s ≠ "") →
      validate_url v = (false, some "URL is required and must be a string")) ∧
    (∀ s e, v = .vstr s → s ≠ "" → pyUrlparse s = Except.error e →
      validate_url v = (false, some ("Invalid URL format: " ++ e))) ∧
    (∀ s pr, v = .vstr s → s ≠ "" → pyUrlparse s = Except.ok pr →
      pr.scheme = "" →
      validate_url v = (false, some "URL must include protocol (http:// or https://)")) ∧
    (∀ s pr, v = .vstr s → s ≠ "" → pyUrlparse s = Except.ok pr →
      pr.scheme ≠ "" → pr.scheme ∉ ALLOWED_PROTOCOLS →
      validate_url v = (false, some "Only ['http', 'https'] protocols are allowed")) ∧
    (∀ s pr, v = .vstr s → s ≠ "" → pyUrlparse s = Except.ok pr →
      pr.scheme ∈ ALLOWED_PROTOCOLS → pr.netloc = "" →
      validate_url v = (false, some "URL must include a valid domain")) := by
  rcases v with _ | s | t
  · refine ⟨?_, fun _ => rfl, ?_, ?_, ?_, ?_⟩
    · simp [validate_url]
    all_goals intro s pr h <;> cases h
  · by_cases hs : s = ""
    · subst hs
      refine ⟨?_, fun _ => rfl, ?_, ?_, ?_, ?_⟩
      · rw [show validate_url (.vstr "") =
          (false, some "URL is required and must be a string") from rfl]
        simp
      all_goals intro s' pr h hne <;> (obtain rfl : s' = "" := by cases h; rfl) <;>
        exact absurd rfl hne
    · have hemp : s.isEmpty = false := by
        rcases he : s.isEmpty
        · rfl
        · exact absurd ((String.isEmpty_iff s).mp he) hs
      have hexists : ∃ s', PyVal.vstr s = .vstr s' ∧ s' ≠ "" := ⟨s, rfl, hs⟩
      rcases hp : pyUrlparse s with e | pr
      · have hval : validate_url (.vstr s) =
            (false, some ("Invalid URL format: " ++ e)) := by
          simp [validate_url, pyTruthy, isStr, hemp, hp]
        refine ⟨?_, fun h => absurd hexists h, ?_, ?_, ?_, ?_⟩
        · rw [hval]
          refine ⟨fun h => Bool.noConfusion h, fun hr => ?_⟩
          exfalso
          obtain ⟨s', hv, -, pr, hpr, -⟩ := hr
          obtain rfl : s' = s := by cases hv; rfl
          rw [hp] at hpr
          cases hpr
        · intro s' e' hv hne hpe
          obtain rfl : s' = s := by cases hv; rfl
          rw [hp] at hpe
          cases hpe
          exact hval
        all_goals intro s' pr hv hne hpe
        all_goals obtain rfl : s' = s := by cases hv; rfl
        all_goals rw [hp] at hpe
        all_goals cases hpe
      · have hmem_iff : pr.scheme ∈ ALLOWED_PROTOCOLS ↔
            (pr.scheme = "http" ∨ pr.scheme = "https") := by
          simp [ALLOWED_PROTOCOLS]
        by_cases hsch : pr.scheme = ""
        · have hschE : pr.scheme.isEmpty = true := (String.isEmpty_iff _).mpr hsch
          have hval : validate_url (.vstr s) =
              (false, some "URL must include protocol (http:// or https://)") := by
            simp [validate_url, pyTruthy, isStr, hemp, hp, hschE]
          refine ⟨?_, fun h => absurd hexists h, ?_, fun _ _ _ _ _ _ => hval, ?_, ?_⟩
          · rw [hval]
            refine ⟨fun h => Bool.noConfusion h, fun hr => ?_⟩
            exfalso
            obtain ⟨s', hv, -, pr', hpr, hor, -⟩ := hr
            obtain rfl : s' = s := by cases hv; rfl
            rw [hp] at hpr
            obtain rfl : pr' = pr := by cases hpr; rfl
            rcases hor with h | h <;> rw [hsch] at h <;> exact absurd h (by decide)
          · intro s' e' hv hne hpe
            obtain rfl : s' = s := by cases hv; rfl
            rw [hp] at hpe
            cases hpe
          · intro s' pr' hv hne hpe hsch' hmem'
            obtain rfl : s' = s := by cases hv; rfl
            rw [hp] at hpe
            obtain rfl : pr' = pr := by cases hpe; rfl
            exact absurd hsch hsch'
          · intro s' pr' hv hne hpe hmem' hnl'
            obtain rfl : s' = s := by cases hv; rfl
            rw [hp] at hpe
            obtain rfl : pr' = pr := by cases hpe; rfl
            rw [hmem_iff] at hmem'
            rcases hmem' with h | h <;> rw [hsch] at h <;> exact absurd h (by decide)
        · have hschE : pr.scheme.isEmpty = false := by
            rcases he : pr.scheme.isEmpty
            · rfl
            · exact absurd ((String.isEmpty_iff _).mp he) hsch
          by_cases hmem : pr.scheme ∈ ALLOWED_PROTOCOLS
          · by_cases hnl : pr.netloc = ""
            · have hnlE : pr.netloc.isEmpty = true := (String.isEmpty_iff _).mpr hnl
              have hval : validate_url (.vstr s) =
                  (false, some "URL must include a valid domain") := by
                simp [validate_url, pyTruthy, isStr, hemp, hp, hschE, hmem, hnlE]
              refine ⟨?_, fun h => absurd hexists h, ?_, ?_, ?_,
                fun _ _ _ _ _ _ _ => hval⟩
              · rw [hval]
                refine ⟨fun h => Bool.noConfusion h, fun hr => ?_⟩
                exfalso
                obtain ⟨s', hv, -, pr', hpr, -, hnl'⟩ := hr
                obtain rfl : s' = s := by cases hv; rfl
                rw [hp] at hpr
                obtain rfl : pr' = pr := by cases hpr; rfl
                exact absurd hnl hnl'
              · intro s' e' hv hne hpe
                obtain rfl : s' = s := by cases hv; rfl
                rw [hp] at hpe
                cases hpe
              · intro s' pr' hv hne hpe hsch'
                obtain rfl : s' = s := by cases hv; rfl
                rw [hp] at hpe
                obtain rfl : pr' = pr := by cases hpe; rfl
                exact absurd hsch' hsch
              · intro s' pr' hv hne hpe hsch' hmem'
                obtain rfl : s' = s := by cases hv; rfl
                rw [hp] at hpe
                obtain rfl : pr' = pr := by cases hpe; rfl
                exact absurd hmem hmem'
            · have hnlE : pr.netloc.isEmpty = false := by
                rcases he : pr.netloc.isEmpty
                · rfl
                · exact absurd ((String.isEmpty_iff _).mp he) hnl
              have hval : validate_url (.vstr s) = (true, none) := by
                simp [validate_url, pyTruthy, isStr, hemp, hp, hschE, hmem, hnlE]
              refine ⟨?_, fun h => absurd hexists h, ?_, ?_, ?_, ?_⟩
              · rw [hval]
                exact ⟨fun _ => ⟨s, rfl, hs, pr, hp, hmem_iff.mp hmem, hnl⟩,
                  fun _ => rfl⟩
              · intro s' e' hv hne hpe
                obtain rfl : s' = s := by cases hv; rfl
                rw [hp] at hpe
                cases hpe
              · intro s' pr' hv hne hpe hsch'
                obtain rfl : s' = s := by cases hv; rfl
                rw [hp] at hpe
                obtain rfl : pr' = pr := by cases hpe; rfl
                exact absurd hsch' hsch
              · intro s' pr' hv hne hpe hsch' hmem'
                obtain rfl : s' = s := by cases hv; rfl
                rw [hp] at hpe
                obtain rfl : pr' = pr := by cases hpe; rfl
                exact absurd hmem hmem'
              · intro s' pr' hv hne hpe hmem' hnl'
                obtain rfl : s' = s := by cases hv; rfl
                rw [hp] at hpe
                obtain rfl : pr' = pr := by cases hpe; rfl
                exact absurd hnl' hnl
          · have hval : validate_url (.vstr s) =
                (false, some "Only ['http', 'https'] protocols are allowed") := by
              simp [validate_url, pyTruthy, isStr, hemp, hp, hschE, hmem]
            refine ⟨?_, fun h => absurd hexists h, ?_, ?_,
              fun _ _ _ _ _ _ _ => hval, ?_⟩
            · rw [hval]
              refine ⟨fun h => Bool.noConfusion h, fun hr => ?_⟩
              exfalso
              obtain ⟨s', hv, -, pr', hpr, hor, -⟩ := hr
              obtain rfl : s' = s := by cases hv; rfl
              rw [hp] at hpr
              obtain rfl : pr' = pr := by cases hpr; rfl
              exact absurd (hmem_iff.mpr hor) hmem
            · intro s' e' hv hne hpe
              obtain rfl : s' = s := by cases hv; rfl
              rw [hp] at hpe
              cases hpe
            · intro s' pr' hv hne hpe hsch'
              obtain rfl : s' = s := by cases hv; rfl
              rw [hp] at hpe
              obtain rfl : pr' = pr := by cases hpe; rfl
              exact absurd hsch' hsch
            · intro s' pr' hv hne hpe hmem' hnl'
              obtain rfl : s' = s := by cases hv; rfl
              rw [hp] at hpe
              obtain rfl : pr' = pr := by cases hpe; rfl
              exact absurd hmem' hmem
  · refine ⟨?_, fun _ => by simp [validate_url, pyTruthy, isStr], ?_, ?_, ?_, ?_⟩
    · simp [validate_url, pyTruthy, isStr]
    all_goals intro s pr h <;> cases h

/-- C2 witness: concrete boundary inputs: an accepted URL, a rejected
disallowed protocol, an accepted netloc of a single trailing space
(`urlsplit` never strips the right end), and a netloc rejected by the
NFKC check with its exact message. -/
theorem validate_url_spec_witness :
    (validate_url (.vstr "http://example.com")).1 = true ∧
    validate_url (.vstr "ftp://example.com") =
      (false, some "Only ['http', 'https'] protocols are allowed") ∧
    (validate_url (.vstr "http:// ")).1 = true ∧
    validate_url (.vstr "http://a℀b") = (false, some
      "Invalid URL format: netloc 'a℀b' contains invalid characters under NFKC normalization") := by
  refine ⟨?_, ?_, ?_, ?_⟩
  · exact (validate_url_spec (.vstr "http://example.com")).1.mpr
      ⟨"http://example.com", rfl, by decide, ⟨"http", "example.com"⟩, rfl,
        Or.inl rfl, by decide⟩
  · exact (validate_url_spec (.vstr "ftp://example.com")).2.2.2.2.1
      "ftp://example.com" ⟨"ftp", "example.com"⟩ rfl (by decide) rfl
      (by decide) (by decide)
  · exact (validate_url_spec (.vstr "http:// ")).1.mpr
      ⟨"http:// ", rfl, by decide, ⟨"http", " "⟩, rfl, Or.inl rfl, by decide⟩
  · exact (validate_url_spec (.vstr "http://a℀b")).2.2.1
      "http://a℀b"
      "netloc 'a℀b' contains invalid characters under NFKC normalization"
      rfl (by decide) rfl

end URLShortener
